import Mathlib

/-!
Verification of the fyn-runner core against its specification.

Shallow embedding of the Python sources:
- fyn_runner/server/message_queue.py (MessageQueue)
- fyn_runner/job_manager/job_activity_tracking.py (ActiveJobTracker)
- fyn_runner/server/server_proxy.py (response futures, WebSocket dispatch)
- fyn_runner/job_manager/job_manager.py (launch and rollback)
- fyn_runner/job_manager/job.py (result reporting)
- fyn_runner/utilities/file_manager.py (simulation directory requests)

Python dicts are modelled as association lists with dict-assignment
(replace-or-append) semantics; raised exceptions are modelled with Except or
with explicit flags; Python list.sort (stable, ascending) is modelled by
List.insertionSort, which is likewise a stable ascending sort.
-/

/-- Modelled from the spec: the Message class (fyn_runner/server/message.py is
absent from src/). Only the fields the Message Queue reads are kept: an opaque
unique message id and a numeric priority. The queue code sorts on the
priority attribute alone. -/
structure Message where
  msg_id : Nat
  priority : Nat
deriving DecidableEq

/-- Ordering used by MessageQueue.push_message:
self._queue.sort(key=lambda x: x.priority). -/
def msgLe (a b : Message) : Prop := a.priority ≤ b.priority

instance : DecidableRel msgLe := fun a b => Nat.decLe a.priority b.priority

instance : IsTotal Message msgLe := ⟨fun a b => Nat.le_total a.priority b.priority⟩

instance : IsTrans Message msgLe := ⟨fun _ _ _ h h' => Nat.le_trans h h'⟩

/-- MessageQueue.push_message: append the message, then sort the whole list
ascending by priority. Python list.sort is stable; List.insertionSort is the
matching stable ascending sort. -/
def push_message (q : List Message) (m : Message) : List Message :=
  List.insertionSort msgLe (q ++ [m])

/-- MessageQueue.get_next_message: return None on an empty queue, else remove
and return the last element of the sorted list (Python queue.pop(-1)). -/
def get_next_message (q : List Message) : Option (Message × List Message) :=
  match q.getLast? with
  | none => none
  | some m => some (m, q.dropLast)

/-- External operations on a MessageQueue. -/
inductive QueueOp where
  | push (m : Message)
  | pop
deriving DecidableEq

/-- One queue operation: push inserts, pop discards the returned message. -/
def stepOp (q : List Message) (op : QueueOp) : List Message :=
  match op with
  | .push m => push_message q m
  | .pop =>
    match get_next_message q with
    | none => q
    | some (_, rest) => rest

/-- Queue contents after running a sequence of operations from the empty queue. -/
def runOps (ops : List QueueOp) : List Message :=
  ops.foldl stepOp []

/-- Popped messages obtained by draining the queue, with an explicit fuel
bound (the pop loop runs at most once per resident message). -/
def drainAux : Nat → List Message → List Message
  | 0, _ => []
  | fuel + 1, q =>
    match get_next_message q with
    | none => []
    | some (m, rest) => m :: drainAux fuel rest

/-- Messages returned by repeatedly calling get_next_message until empty. -/
def drain (q : List Message) : List Message :=
  drainAux q.length q

theorem get_next_message_eq (q : List Message) (m : Message) (rest : List Message)
    (h : get_next_message q = some (m, rest)) :
    q.getLast? = some m ∧ rest = q.dropLast := by
  revert h
  unfold get_next_message
  cases hq : q.getLast? with
  | none => intro h; exact absurd h (by simp)
  | some m' =>
    intro h
    simp only [Option.some.injEq, Prod.mk.injEq] at h
    obtain ⟨rfl, hr⟩ := h
    exact ⟨rfl, hr.symm⟩

theorem stepOp_sorted (q : List Message) (op : QueueOp) (hs : List.Sorted msgLe q) :
    List.Sorted msgLe (stepOp q op) := by
  cases op with
  | push m => exact List.sorted_insertionSort msgLe (q ++ [m])
  | pop =>
    show List.Sorted msgLe (match get_next_message q with
      | none => q
      | some (_, rest) => rest)
    cases hg : get_next_message q with
    | none => exact hs
    | some p =>
      obtain ⟨_, hrest⟩ := get_next_message_eq q p.1 p.2 (by rw [hg])
      simpa [hrest] using hs.sublist (List.dropLast_sublist q)

theorem foldl_stepOp_sorted (ops : List QueueOp) (q : List Message)
    (hs : List.Sorted msgLe q) : List.Sorted msgLe (ops.foldl stepOp q) := by
  induction ops generalizing q with
  | nil => exact hs
  | cons op rest ih => exact ih (stepOp q op) (stepOp_sorted q op hs)

theorem runOps_sorted (ops : List QueueOp) : List.Sorted msgLe (runOps ops) :=
  foldl_stepOp_sorted ops [] (List.sorted_nil)

theorem sorted_pop_max (q : List Message) (hs : List.Sorted msgLe q)
    (m : Message) (rest : List Message) (h : get_next_message q = some (m, rest)) :
    ∀ x ∈ rest, x.priority ≤ m.priority := by
  obtain ⟨hlast, hrest⟩ := get_next_message_eq q m rest h
  have hne : q ≠ [] := by
    intro hq
    rw [hq] at hlast
    exact absurd hlast (by simp)
  have hdecomp : q.dropLast ++ [q.getLast hne] = q := List.dropLast_append_getLast hne
  have hm : q.getLast hne = m := by
    have := List.getLast?_eq_getLast q hne
    rw [this] at hlast
    exact Option.some.inj hlast
  rw [← hdecomp] at hs
  have := (List.pairwise_append.mp hs).2.2
  intro x hx
  rw [hrest] at hx
  have hx' := this x hx (q.getLast hne) (by simp)
  rw [hm] at hx'
  exact hx'

theorem drainAux_eq_reverse (fuel : Nat) (q : List Message) (hf : q.length ≤ fuel) :
    drainAux fuel q = q.reverse := by
  induction fuel generalizing q with
  | zero =>
    have : q = [] := List.eq_nil_of_length_eq_zero (Nat.le_zero.mp hf)
    simp [this, drainAux]
  | succ n ih =>
    cases hq : q with
    | nil => simp [drainAux, get_next_message]
    | cons a as =>
      rw [← hq]
      have hne : q ≠ [] := by rw [hq]; simp
      have hlast : q.getLast? = some (q.getLast hne) := List.getLast?_eq_getLast q hne
      have hdecomp : q.dropLast ++ [q.getLast hne] = q := List.dropLast_append_getLast hne
      have hlen : q.dropLast.length ≤ n := by
        have : q.length = as.length + 1 := by rw [hq]; simp
        have h2 : q.dropLast.length = q.length - 1 := List.length_dropLast q
        omega
      show drainAux (n + 1) q = q.reverse
      rw [show drainAux (n + 1) q = (match get_next_message q with
            | none => []
            | some (m, rest) => m :: drainAux n rest) from rfl]
      rw [show get_next_message q = some (q.getLast hne, q.dropLast) by
            unfold get_next_message; rw [hlast]]
      show q.getLast hne :: drainAux n q.dropLast = q.reverse
      rw [ih q.dropLast hlen]
      conv_rhs => rw [← hdecomp]
      simp

theorem sorted_drain_chain (q : List Message) (hs : List.Sorted msgLe q) :
    List.Chain' (fun a b : Message => b.priority ≤ a.priority) (drain q) := by
  have hd : drain q = q.reverse := drainAux_eq_reverse q.length q (Nat.le_refl _)
  rw [hd]
  have : List.Pairwise (fun a b : Message => b.priority ≤ a.priority) q.reverse :=
    (List.pairwise_reverse).mpr hs
  exact this.chain'

/-- C1 (amended): the Message Queue pops the message with the largest priority
value: get_next_message on any reachable non-empty queue returns a message
whose priority is greater than or equal to the priority of every message
still resident, and draining any reachable queue by repeated pops yields a
non-increasing priority sequence. -/
theorem mq_pop_max_drain_nonincreasing (ops : List QueueOp) (m : Message)
    (rest : List Message) (h : get_next_message (runOps ops) = some (m, rest)) :
    (∀ x ∈ rest, x.priority ≤ m.priority) ∧
    List.Chain' (fun a b : Message => b.priority ≤ a.priority) (drain (runOps ops)) :=
  ⟨sorted_pop_max (runOps ops) (runOps_sorted ops) m rest h,
   sorted_drain_chain (runOps ops) (runOps_sorted ops)⟩

/-- C1 witness: concrete run with pushes of priorities 1 then 2; the pop
returns the priority-2 message and the conclusions hold there. -/
theorem mq_pop_max_drain_nonincreasing_witness :
    (∀ x ∈ [(⟨0, 1⟩ : Message)], x.priority ≤ (⟨1, 2⟩ : Message).priority) ∧
    List.Chain' (fun a b : Message => b.priority ≤ a.priority)
      (drain (runOps [QueueOp.push ⟨0, 1⟩, QueueOp.push ⟨1, 2⟩])) :=
  mq_pop_max_drain_nonincreasing [QueueOp.push ⟨0, 1⟩, QueueOp.push ⟨1, 2⟩]
    ⟨1, 2⟩ [⟨0, 1⟩] (by decide)

/-- C1 counterexample: after pushing priorities 1 then 2, get_next_message
returns the priority-2 message, whose priority is not less than or equal to
the priority of the resident priority-1 message — refuting the claim that pop
returns a message with minimal priority value. -/
theorem mq_claim_pop_min_false :
    get_next_message (runOps [QueueOp.push ⟨0, 1⟩, QueueOp.push ⟨1, 2⟩]) =
      some (⟨1, 2⟩, [⟨0, 1⟩]) ∧
    ¬ ((⟨1, 2⟩ : Message).priority ≤ (⟨0, 1⟩ : Message).priority) := by
  decide

/-- C6: evaluating the queue at the failing input: two messages of equal
priority are pushed (msg_id 0 first, then msg_id 1); get_next_message returns
the later-pushed msg_id 1 first, and the full drain returns them in reverse
push order — LIFO among equal priorities, refuting FIFO among peers. -/
theorem mq_equal_priority_pop_returns_later_pushed :
    get_next_message (runOps [QueueOp.push ⟨0, 5⟩, QueueOp.push ⟨1, 5⟩]) =
      some (⟨1, 5⟩, [⟨0, 5⟩]) ∧
    drain (runOps [QueueOp.push ⟨0, 5⟩, QueueOp.push ⟨1, 5⟩]) = [⟨1, 5⟩, ⟨0, 5⟩] := by
  decide

/-- StatusEnum from fyn_api_client, the job status codes consumed by
job_activity_tracking.py: QD=QUEUED, PR=PREPARING, FR=FETCHING_RESOURCES,
RN=RUNNING, PD=PAUSED, CU=CLEANING_UP, UR=UPLOADING_RESULTS, SD=SUCCEEDED,
FD=FAILED, FS=FAILED_RESOURCE, FM=FAILED_TERMINATED, FO=FAILED_TIMEOUT,
FE=FAILED_EXCEPTION. -/
inductive StatusEnum where
  | QD | PR | FR | RN | PD | CU | UR | SD | FD | FS | FM | FO | FE
deriving DecidableEq

/-- ActivityState from job_activity_tracking.py. -/
inductive ActivityState where
  | pending | active | complete
deriving DecidableEq

/-- job_status_to_activity_status: total over the closed enumeration (the
source's default case raises ValueError and is unreachable here). -/
def job_status_to_activity_status : StatusEnum → ActivityState
  | .QD => .pending
  | .PR => .active
  | .FR => .active
  | .RN => .active
  | .PD => .active
  | .CU => .active
  | .UR => .active
  | .SD => .complete
  | .FD => .complete
  | .FS => .complete
  | .FM => .complete
  | .FO => .complete
  | .FE => .complete

/-- Membership test for a Python dict modelled as an association list. -/
def mapContains {α β : Type} [BEq α] (k : α) (m : List (α × β)) : Bool :=
  m.any (fun p => p.1 == k)

/-- Python dict assignment d[k] = v: replace the value in place if the key is
present, otherwise append the binding. -/
def mapSet {α β : Type} [BEq α] (k : α) (v : β) (m : List (α × β)) : List (α × β) :=
  if mapContains k m then m.map (fun p => if p.1 == k then (k, v) else p)
  else m ++ [(k, v)]

/-- Python dict deletion del d[k] / d.pop(k). -/
def mapErase {α β : Type} [BEq α] (k : α) (m : List (α × β)) : List (α × β) :=
  m.filter (fun p => !(p.1 == k))

/-- Python dict lookup d.get(k). -/
def mapFind {α β : Type} [BEq α] (k : α) : List (α × β) → Option β
  | [] => none
  | p :: rest => if p.1 == k then some p.2 else mapFind k rest

/-- Job record as seen by the tracker: an id and a mutable status. -/
structure JobRec where
  id : Nat
  status : StatusEnum
deriving DecidableEq

/-- ActiveJobTracker state: the two job-id keyed dicts. The stored value is
the tracked job's current status. -/
structure ActiveJobTracker where
  active_jobs : List (Nat × StatusEnum)
  completed_jobs : List (Nat × StatusEnum)
deriving DecidableEq

def emptyTracker : ActiveJobTracker := ⟨[], []⟩

/-- ActiveJobTracker.is_active. -/
def is_active (t : ActiveJobTracker) (job_id : Nat) : Bool :=
  mapContains job_id t.active_jobs

/-- ActiveJobTracker.is_completed. -/
def is_completed (t : ActiveJobTracker) (job_id : Nat) : Bool :=
  mapContains job_id t.completed_jobs

/-- ActiveJobTracker.is_tracked. -/
def is_tracked (t : ActiveJobTracker) (job_id : Nat) : Bool :=
  is_active t job_id || is_completed t job_id

/-- ActiveJobTracker.add_job: place the job in the map dictated by its status
phase; a PENDING job raises. No already-tracked check is performed. -/
def add_job (t : ActiveJobTracker) (job : JobRec) : Except String ActiveJobTracker :=
  match job_status_to_activity_status job.status with
  | .pending => .error "Cannot add pending job - use queue instead"
  | .active => .ok { t with active_jobs := mapSet job.id job.status t.active_jobs }
  | .complete => .ok { t with completed_jobs := mapSet job.id job.status t.completed_jobs }

/-- ActiveJobTracker.update_job_status: reject the corrupt both-maps state and
unknown ids, then relocate or update in place; when the new status maps to
PENDING none of the four branches applies and the state is returned
unchanged. -/
def update_job_status (t : ActiveJobTracker) (job_id : Nat) (new_status : StatusEnum) :
    Except String ActiveJobTracker :=
  let ia := is_active t job_id
  let ic := is_completed t job_id
  if ia && ic then .error "Job is both active and complete - data corruption"
  else if !ia && !ic then .error "Unknown job - cannot update status"
  else
    let nas := job_status_to_activity_status new_status
    if nas == .active && ic then
      .ok { active_jobs := mapSet job_id new_status t.active_jobs,
            completed_jobs := mapErase job_id t.completed_jobs }
    else if nas == .complete && ia then
      .ok { active_jobs := mapErase job_id t.active_jobs,
            completed_jobs := mapSet job_id new_status t.completed_jobs }
    else if ia && nas == .active then
      .ok { t with active_jobs := mapSet job_id new_status t.active_jobs }
    else if ic && nas == .complete then
      .ok { t with completed_jobs := mapSet job_id new_status t.completed_jobs }
    else .ok t

/-- ActiveJobTracker.remove_job: delete from whichever maps hold the id and
report whether anything was removed. -/
def remove_job (t : ActiveJobTracker) (job_id : Nat) : Bool × ActiveJobTracker :=
  let removed_a := is_active t job_id
  let t1 := if removed_a then
    { t with active_jobs := mapErase job_id t.active_jobs } else t
  let removed_c := is_completed t1 job_id
  let t2 := if removed_c then
    { t1 with completed_jobs := mapErase job_id t1.completed_jobs } else t1
  (removed_a || removed_c, t2)

/-- External operations on the ActiveJobTracker. -/
inductive TrackerOp where
  | add (job : JobRec)
  | update (job_id : Nat) (new_status : StatusEnum)
  | remove (job_id : Nat)
deriving DecidableEq

/-- One tracker operation; a raised error leaves the state unmodified, as the
source raises before mutating. -/
def trackerStep (t : ActiveJobTracker) (op : TrackerOp) : ActiveJobTracker :=
  match op with
  | .add job =>
    match add_job t job with
    | .ok t' => t'
    | .error _ => t
  | .update job_id st =>
    match update_job_status t job_id st with
    | .ok t' => t'
    | .error _ => t
  | .remove job_id => (remove_job t job_id).2

/-- Tracker state after a sequence of operations from the empty tracker. -/
def runTrackerOps (ops : List TrackerOp) : ActiveJobTracker :=
  ops.foldl trackerStep emptyTracker

/-- C2: evaluating the tracker at the failing input: add_job performs no
already-tracked check, so adding job 1 with an ACTIVE status (RN) and then
adding job 1 again with a COMPLETE status (SD) leaves the id in both maps at
once — is_active and is_completed both hold, violating disjointness and the
XOR property; the code's own update_job_status then rejects the state as data
corruption. -/
theorem tracker_double_add_in_both_maps :
    is_active (runTrackerOps [.add ⟨1, .RN⟩, .add ⟨1, .SD⟩]) 1 = true ∧
    is_completed (runTrackerOps [.add ⟨1, .RN⟩, .add ⟨1, .SD⟩]) 1 = true ∧
    (update_job_status (runTrackerOps [.add ⟨1, .RN⟩, .add ⟨1, .SD⟩]) 1 .FD).isOk
      = false := by
  decide

/-- C10: calling update_job_status on a tracked job (present in exactly one of
the two maps) with a new status whose activity phase is PENDING raises no
error and leaves the tracker state entirely unchanged. -/
theorem update_job_status_pending_noop (t : ActiveJobTracker) (job_id : Nat)
    (new_status : StatusEnum)
    (htracked : is_active t job_id ≠ is_completed t job_id)
    (hpend : job_status_to_activity_status new_status = .pending) :
    update_job_status t job_id new_status = .ok t := by
  unfold update_job_status
  cases ha : is_active t job_id <;> cases hc : is_completed t job_id <;>
    simp [ha, hc, hpend] at htracked ⊢

/-- C10 witness: a tracker holding job 1 as RUNNING, updated with QUEUED. -/
theorem update_job_status_pending_noop_witness :
    update_job_status ⟨[(1, .RN)], []⟩ 1 .QD = .ok ⟨[(1, .RN)], []⟩ :=
  update_job_status_pending_noop ⟨[(1, .RN)], []⟩ 1 .QD (by decide) (by decide)

/-- Decoded JSON object, modelled as an association list of string fields. -/
abbrev JsonBody := List (String × String)

/-- Outcome of issuing one HTTP request in ServerProxy._send_message:
either the requests call raises (connect error, timeout), or a response
arrives with an error status flag (raise_for_status raises on 4xx/5xx) and a
body that either decodes to JSON or fails to decode. -/
inductive HttpOutcome where
  | transport_error
  | http_response (error_status : Bool) (decoded : Option JsonBody)
deriving DecidableEq

/-- Completion performed on a response future. -/
inductive FutureEvent where
  | set_result (body : JsonBody)
  | set_exception
deriving DecidableEq

/-- Response-future bookkeeping of the ServerProxy: the ids with a registered
pending future, and the log of completions performed so far. -/
structure ProxyFutures where
  response_futures : List String
  events : List (String × FutureEvent)
deriving DecidableEq

/-- ServerProxy._handle_response_future: pop the id from the table; if a
future was registered, complete it with the decoded body, or with the decode
exception if decoding raises. -/
def handle_response_future (msg_id : String) (decoded : Option JsonBody)
    (st : ProxyFutures) : ProxyFutures :=
  if st.response_futures.any (fun x => x == msg_id) then
    { response_futures := st.response_futures.filter (fun x => !(x == msg_id)),
      events := st.events ++ [(msg_id,
        match decoded with
        | some body => FutureEvent.set_result body
        | none => FutureEvent.set_exception)] }
  else st

/-- ServerProxy._send_message, future-relevant effects. The returned Bool
records whether an exception escaped to the caller. On success the source
calls _handle_response_future twice (inside the try and again after it); on
an HTTP error status it logs result['message'] (raising KeyError when the
field is absent) before the single _handle_response_future call; a transport
error or a body decode failure raises before any future handling. -/
def send_message (msg_id : String) (outcome : HttpOutcome) (st : ProxyFutures) :
    ProxyFutures × Bool :=
  match outcome with
  | .transport_error => (st, true)
  | .http_response error_status decoded =>
    match decoded with
    | none => (st, true)
    | some body =>
      if !error_status then
        let st1 := handle_response_future msg_id (some body) st
        let st2 := handle_response_future msg_id (some body) st1
        (st2, false)
      else if mapContains "message" body then
        (handle_response_future msg_id (some body) st, false)
      else (st, true)

/-- Amended-spec characterization for C3: the completions the send actually
performs for a registered id — a single set_result with the decoded body
exactly when a response arrived whose body decodes and, on an error status,
carries a message field; nothing otherwise. -/
def expected_future_events (msg_id : String) (outcome : HttpOutcome) :
    List (String × FutureEvent) :=
  match outcome with
  | .http_response error_status (some body) =>
    if !error_status || mapContains "message" body then
      [(msg_id, FutureEvent.set_result body)]
    else []
  | _ => []

theorem any_filter_ne_self (k : String) (l : List String) :
    (l.filter (fun x => !(x == k))).any (fun x => x == k) = false := by
  induction l with
  | nil => rfl
  | cons a as ih =>
    by_cases h : a == k
    · simp [List.filter_cons, h, ih]
    · simp only [List.filter_cons]
      rw [if_pos (by simp [h])]
      simp [List.any_cons, h, ih]

/-- C3 (amended): for a message with a registered pending future, the send
completes the future exactly once — with the decoded body, even on an HTTP
error status — and removes the id from the table, precisely when the HTTP
exchange produced a decodable response (with a message field in the error
case); on a transport error, a decode failure, or an error body without a
message field, the future is not completed and the id stays in the table. -/
theorem send_message_future_lifecycle (msg_id : String) (outcome : HttpOutcome)
    (st : ProxyFutures)
    (hpend : st.response_futures.any (fun x => x == msg_id) = true)
    (hfresh : st.events.filter (fun e => e.1 == msg_id) = []) :
    ((send_message msg_id outcome st).1.events.filter (fun e => e.1 == msg_id)
       = expected_future_events msg_id outcome) ∧
    ((send_message msg_id outcome st).1.response_futures.any (fun x => x == msg_id)
       = (expected_future_events msg_id outcome).isEmpty) := by
  have hstep : ∀ ev : FutureEvent,
      (st.events ++ [(msg_id, ev)]).filter (fun e => e.1 == msg_id)
        = [(msg_id, ev)] := by
    intro ev
    rw [List.filter_append, hfresh]
    simp
  cases outcome with
  | transport_error =>
    simp [send_message, expected_future_events, hfresh, hpend]
  | http_response error_status decoded =>
    cases decoded with
    | none => simp [send_message, expected_future_events, hfresh, hpend]
    | some body =>
      cases error_status with
      | false =>
        have h1 : handle_response_future msg_id (some body) st =
            { response_futures := st.response_futures.filter (fun x => !(x == msg_id)),
              events := st.events ++ [(msg_id, FutureEvent.set_result body)] } := by
          unfold handle_response_future
          rw [if_pos hpend]
        have h2 : handle_response_future msg_id (some body)
            (handle_response_future msg_id (some body) st) =
            handle_response_future msg_id (some body) st := by
          rw [h1]
          unfold handle_response_future
          rw [if_neg (by simp [any_filter_ne_self])]
        simp only [send_message, Bool.not_false, if_pos]
        rw [h2, h1]
        simp only [expected_future_events]
        exact ⟨hstep _, by simp [any_filter_ne_self]⟩
      | true =>
        by_cases hmsg : mapContains "message" body
        · have h1 : handle_response_future msg_id (some body) st =
              { response_futures := st.response_futures.filter (fun x => !(x == msg_id)),
                events := st.events ++ [(msg_id, FutureEvent.set_result body)] } := by
            unfold handle_response_future
            rw [if_pos hpend]
          simp only [send_message, Bool.not_true, Bool.false_eq_true, if_false, if_pos hmsg]
          rw [h1]
          simp only [expected_future_events, hmsg, Bool.or_true]
          exact ⟨hstep _, by simp [any_filter_ne_self]⟩
        · simp [send_message, expected_future_events, hmsg, hfresh, hpend]

/-- C3 witness: an HTTP error response whose body decodes and carries a
message field — the registered future is resolved with the body (not an
exception) and the id leaves the table. -/
theorem send_message_future_lifecycle_witness :
    ((send_message "m1" (.http_response true (some [("message", "bad")]))
        ⟨["m1"], []⟩).1.events.filter (fun e => e.1 == "m1")
       = expected_future_events "m1" (.http_response true (some [("message", "bad")]))) ∧
    ((send_message "m1" (.http_response true (some [("message", "bad")]))
        ⟨["m1"], []⟩).1.response_futures.any (fun x => x == "m1")
       = (expected_future_events "m1"
            (.http_response true (some [("message", "bad")]))).isEmpty) :=
  send_message_future_lifecycle "m1" (.http_response true (some [("message", "bad")]))
    ⟨["m1"], []⟩ (by decide) (by decide)

/-- C3 counterexample: on a transport failure the send raises before any
future handling — the registered future receives no completion and the id is
still present in the response-future table afterwards, refuting completion
and removal on every attempted send. -/
theorem send_transport_error_leaves_future_pending :
    (send_message "m1" HttpOutcome.transport_error ⟨["m1"], []⟩).1.events = [] ∧
    (send_message "m1" HttpOutcome.transport_error ⟨["m1"], []⟩).1.response_futures
      = ["m1"] ∧
    (send_message "m1" HttpOutcome.transport_error ⟨["m1"], []⟩).2 = true :=
  ⟨rfl, rfl, rfl⟩

/-- Reply frame sent over the WebSocket, a JSON object as association list. -/
abbrev Frame := List (String × String)

/-- Behavior of a registered observer callback on one frame: it returns an
object (possibly empty, which Python treats as falsy like None) or raises. -/
inductive HandlerBehavior where
  | returns (d : Frame)
  | raises (msg : String)
deriving DecidableEq

/-- ServerProxy._ws_error_response: emit the error frame only when the
WebSocket is currently connected; otherwise log and drop. -/
def ws_error_response (ws_connected : Bool) (message_id : String) (data : String) :
    List Frame :=
  if ws_connected then
    [[("type", "error"), ("response_to", message_id), ("data", data)]]
  else []

/-- ServerProxy._handle_ws_message: frames emitted in reaction to one inbound
frame. A falsy id is logged and dropped; a falsy type gets an error reply;
otherwise the observer registered for the type runs: its truthy return
object, or a synthetic success object when falsy, gets response_to set only
when the object has no id field of its own, and is sent (a send on a closed
socket raises into the error path, which then drops); a raising handler and
an unknown type get error replies. -/
def handle_ws_message (observers : List (String × HandlerBehavior))
    (ws_connected : Bool) (message_id : Option String)
    (message_type : Option String) : List Frame :=
  match message_id with
  | none => []
  | some mid =>
    if mid == "" then []
    else
      match message_type with
      | none =>
        ws_error_response ws_connected mid "Websocket messages must contain a type field."
      | some mtype =>
        if mtype == "" then
          ws_error_response ws_connected mid "Websocket messages must contain a type field."
        else
          match mapFind mtype observers with
          | some (.returns d) =>
            let response := if d.isEmpty then [("type", "success")] else d
            let response := if !(mapContains "id" response) then
                mapSet "response_to" mid response
              else response
            if ws_connected then [response]
            else ws_error_response ws_connected mid "send raised: socket is closed"
          | some (.raises e) =>
            ws_error_response ws_connected mid ("Error while processing message: " ++ e)
          | none =>
            ws_error_response ws_connected mid ("Unknown message type " ++ mtype)

theorem mapFind_map_set_of_contains {β : Type} (k : String) (v : β)
    (m : List (String × β)) (h : mapContains k m = true) :
    mapFind k (m.map (fun p => if p.1 == k then (k, v) else p)) = some v := by
  induction m with
  | nil => exact absurd h (by simp [mapContains])
  | cons p ps ih =>
    by_cases hp : p.1 == k
    · simp only [List.map_cons, if_pos hp]
      unfold mapFind
      rw [if_pos (by simp)]
    · have h' : mapContains k ps = true := by
        have := h
        unfold mapContains at this
        simp only [List.any_cons, hp, Bool.false_or] at this
        exact this
      simp only [List.map_cons, if_neg hp]
      unfold mapFind
      rw [if_neg (by simpa using hp)]
      exact ih h'

theorem mapFind_append_self {β : Type} (k : String) (v : β)
    (m : List (String × β)) (h : mapContains k m = false) :
    mapFind k (m ++ [(k, v)]) = some v := by
  induction m with
  | nil =>
    unfold mapFind
    simp only [List.nil_append]
    rw [if_pos (by simp)]
  | cons p ps ih =>
    have hp : (p.1 == k) = false := by
      unfold mapContains at h
      simp only [List.any_cons, Bool.or_eq_false_iff] at h
      exact h.1
    have h' : mapContains k ps = false := by
      unfold mapContains at h
      simp only [List.any_cons, Bool.or_eq_false_iff] at h
      exact h.2
    simp only [List.cons_append]
    unfold mapFind
    rw [if_neg (by simp [hp])]
    exact ih h'

theorem mapFind_mapSet {β : Type} (k : String) (v : β) (m : List (String × β)) :
    mapFind k (mapSet k v m) = some v := by
  unfold mapSet
  by_cases h : mapContains k m
  · rw [if_pos h]
    exact mapFind_map_set_of_contains k v m h
  · rw [if_neg h]
    exact mapFind_append_self k v m (by simpa using h)

/-- C7 (amended): for every inbound frame with a truthy id and type, while
the WebSocket is connected exactly one reply frame is emitted, and whenever
that reply has no id field of its own it carries response_to equal to the
original frame's id (a handler return object that already contains an id
field is sent unmodified, without response_to). -/
theorem ws_valid_frame_one_reply (observers : List (String × HandlerBehavior))
    (mid mtype : String) (hmid : (mid == "") = false)
    (htype : (mtype == "") = false) :
    (handle_ws_message observers true (some mid) (some mtype)).length = 1 ∧
    ∀ f ∈ handle_ws_message observers true (some mid) (some mtype),
      mapContains "id" f = false → mapFind "response_to" f = some mid := by
  unfold handle_ws_message ws_error_response
  dsimp only
  rw [if_neg (by simp [hmid]), if_neg (by simp [htype])]
  cases hfind : mapFind mtype observers with
  | none =>
    constructor
    · simp
    · intro f hf _
      simp only [if_true, List.mem_singleton] at hf
      subst hf
      simp [mapFind]
  | some hb =>
    cases hb with
    | raises e =>
      constructor
      · simp
      · intro f hf _
        simp only [if_true, List.mem_singleton] at hf
        subst hf
        simp [mapFind]
    | returns d =>
      by_cases hid : mapContains "id" (if d.isEmpty then [("type", "success")] else d)
      · simp only [hid, Bool.not_true, Bool.false_eq_true, if_false, if_true]
        constructor
        · simp
        · intro f hf hfid
          simp only [List.mem_singleton] at hf
          subst hf
          rw [hid] at hfid
          exact absurd hfid (by decide)
      · simp only [hid, Bool.not_false, if_true]
        constructor
        · simp
        · intro f hf _
          simp only [List.mem_singleton] at hf
          subst hf
          exact mapFind_mapSet "response_to" mid _

/-- C7 witness: a frame of unknown type with a truthy id and type — the one
emitted reply is the error frame carrying response_to. -/
theorem ws_valid_frame_one_reply_witness :
    (handle_ws_message [] true (some "m1") (some "ping")).length = 1 ∧
    ∀ f ∈ handle_ws_message [] true (some "m1") (some "ping"),
      mapContains "id" f = false → mapFind "response_to" f = some "m1" :=
  ws_valid_frame_one_reply [] "m1" "ping" (by decide) (by decide)

/-- C7 counterexample: the registered handler returns an object that contains
an id field; the single emitted reply is that object unmodified, with no
response_to field at all — refuting that every reply carries response_to
equal to the inbound frame's id. -/
theorem ws_handler_returning_id_drops_response_to :
    handle_ws_message [("t", .returns [("id", "x")])] true (some "m1") (some "t")
      = [[("id", "x")]] ∧
    mapContains "response_to" [("id", "x")] = false :=
  ⟨rfl, rfl⟩

/-- Collaborators a JobManager is constructed with, kept abstract. -/
structure JobManagerCollabs (P F L T : Type) where
  server_proxy : P
  file_manager : F
  logger : L
  job_activity_tracker : T

/-- Value occupying the file_manager position of the Job constructor: either
an injected FileManager or a literal pathlib Path built from a string. -/
inductive FileManagerParam (F : Type) where
  | injected (f : F)
  | pathOf (s : String)

/-- Arguments the Job constructor receives besides the job record. -/
structure JobCtorArgs (P F L T : Type) where
  server_proxy : P
  file_manager : FileManagerParam F
  logger : L
  activity_tracker : T

/-- JobManager._launch_new_job constructor call:
Job(job_info, self.server_proxy, Path(""), self.logger,
self._job_activity_tracker). -/
def launch_job_ctor_args {P F L T : Type} (m : JobManagerCollabs P F L T) :
    JobCtorArgs P F L T :=
  { server_proxy := m.server_proxy
    file_manager := FileManagerParam.pathOf ""
    logger := m.logger
    activity_tracker := m.job_activity_tracker }

/-- C5: evaluating the launch constructor call: the Job receives the
manager's server proxy, logger and shared activity tracker, but its
file_manager position is filled with the literal Path("") — it never receives
the file manager the manager was constructed with, contradicting Job's own
parameter annotation file_manager: FileManager. -/
theorem launch_passes_empty_path_not_file_manager {P F L T : Type}
    (m : JobManagerCollabs P F L T) :
    (launch_job_ctor_args m).file_manager = FileManagerParam.pathOf "" ∧
    (launch_job_ctor_args m).file_manager ≠ FileManagerParam.injected m.file_manager ∧
    (launch_job_ctor_args m).server_proxy = m.server_proxy ∧
    (launch_job_ctor_args m).logger = m.logger ∧
    (launch_job_ctor_args m).activity_tracker = m.job_activity_tracker := by
  refine ⟨rfl, ?_, rfl, rfl, rfl⟩
  intro h
  exact FileManagerParam.noConfusion h

/-- Job record fields the manager's launch and rollback read. -/
structure JobInfo where
  id : Nat
  priority : Nat
  status : StatusEnum
deriving DecidableEq

/-- JobManager state touched by _launch_new_job: the local pending priority
queue of (priority, job id) entries, the worker (observer-thread) table keyed
by job id, the shared tracker, and the job status PATCHes accepted by the
server. -/
structure ManagerState where
  pending_queue : List (Nat × Nat)
  observer_threads : List Nat
  tracker : ActiveJobTracker
  server_patches : List (Nat × StatusEnum)
deriving DecidableEq

def emptyManagerState : ManagerState := ⟨[], [], emptyTracker, []⟩

/-- JobManager._launch_new_job. On success the worker is recorded against the
job id. On worker-creation failure the except branch runs: any worker-table
entry for the id is deleted, then one try block attempts the PATCH back to
QUEUED, the queue reinsertion at job_info.priority, and the conditional
tracker removal — so when the PATCH raises (rollback_patch_ok = false) the
reinsertion and the tracker removal are skipped (the source then logs via the
nonexistent attribute self.job). -/
def launch_new_job (worker_creation_fails rollback_patch_ok : Bool)
    (job_info : JobInfo) (s : ManagerState) : ManagerState :=
  if !worker_creation_fails then
    { s with observer_threads := s.observer_threads ++ [job_info.id] }
  else
    let s1 := { s with
      observer_threads := s.observer_threads.filter (fun x => !(x == job_info.id)) }
    if rollback_patch_ok then
      let s2 := { s1 with
        server_patches := s1.server_patches ++ [(job_info.id, StatusEnum.QD)] }
      let s3 := { s2 with
        pending_queue := s2.pending_queue ++ [(job_info.priority, job_info.id)] }
      if is_tracked s3.tracker job_info.id then
        { s3 with tracker := (remove_job s3.tracker job_info.id).2 }
      else s3
    else s1

theorem mapContains_mapErase {α β : Type} [BEq α] (k : α) (m : List (α × β)) :
    mapContains k (mapErase k m) = false := by
  induction m with
  | nil => rfl
  | cons p ps ih =>
    by_cases h : p.1 == k
    · simp only [mapErase, List.filter_cons, h, Bool.not_true, Bool.false_eq_true,
        if_false]
      exact ih
    · simp only [mapErase, List.filter_cons] at ih ⊢
      rw [if_pos (by simp [h])]
      simp only [mapContains, List.any_cons, h, Bool.false_or]
      exact ih

theorem is_tracked_remove_job (t : ActiveJobTracker) (job_id : Nat) :
    is_tracked (remove_job t job_id).2 job_id = false := by
  unfold remove_job
  dsimp only
  split_ifs with h1 h2 h3 <;>
    simp_all [is_tracked, is_active, is_completed, mapContains_mapErase]

/-- C4 (amended): when worker creation fails and the rollback PATCH to the
server succeeds, the rollback is complete — the server has accepted a QUEUED
patch for the job, the local pending queue contains the job at its original
priority, the tracker does not contain it, and no worker-table entry for it
remains. -/
theorem launch_failure_rollback_with_patch (job_info : JobInfo) (s : ManagerState) :
    (job_info.priority, job_info.id)
      ∈ (launch_new_job true true job_info s).pending_queue ∧
    is_tracked (launch_new_job true true job_info s).tracker job_info.id = false ∧
    (job_info.id, StatusEnum.QD) ∈ (launch_new_job true true job_info s).server_patches ∧
    job_info.id ∉ (launch_new_job true true job_info s).observer_threads := by
  unfold launch_new_job
  dsimp only
  by_cases htr : is_tracked
      { pending_queue := s.pending_queue ++ [(job_info.priority, job_info.id)],
        observer_threads := s.observer_threads.filter (fun x => !(x == job_info.id)),
        tracker := s.tracker,
        server_patches := s.server_patches ++ [(job_info.id, StatusEnum.QD)]
        : ManagerState }.tracker job_info.id
  · rw [if_pos htr]
    refine ⟨by simp, is_tracked_remove_job _ _, by simp, ?_⟩
    simp [List.mem_filter]
  · rw [if_neg htr]
    refine ⟨by simp, by simpa using htr, by simp, ?_⟩
    simp [List.mem_filter]

/-- C4 counterexample: worker creation fails and the rollback PATCH itself
raises — the except handler skips the queue reinsertion and the tracker
removal, so afterwards the local pending queue does not contain job 7 at
priority 7 (it is empty) and the server never saw the QUEUED patch, refuting
the unconditional rollback postcondition. -/
theorem launch_rollback_patch_failure_loses_job :
    (launch_new_job true false ⟨7, 7, StatusEnum.QD⟩ emptyManagerState).pending_queue
      = [] ∧
    (launch_new_job true false ⟨7, 7, StatusEnum.QD⟩ emptyManagerState).server_patches
      = [] :=
  ⟨rfl, rfl⟩

/-- Fields of a job partial-update request issued to the server. -/
inductive JobPatchField where
  | exit_code (code : Int)
  | status (st : StatusEnum)
deriving DecidableEq

/-- Server PATCH issued by Job._update_status for one status change (the
helper's tracker bookkeeping and logging produce no job-record patch; the
helper swallows its own errors). -/
def update_status_patches (st : StatusEnum) : List JobPatchField :=
  [JobPatchField.status st]

/-- Job._report_application_result: PATCH the subprocess returncode as
exit_code, then report SUCCEEDED when the returncode is zero, FAILED
otherwise. -/
def report_application_result (returncode : Int) : List JobPatchField :=
  let patches := [JobPatchField.exit_code returncode]
  if returncode == 0 then patches ++ update_status_patches StatusEnum.SD
  else patches ++ update_status_patches StatusEnum.FD

/-- C8: for every subprocess returncode, the executor patches exactly that
exit code verbatim onto the job record and then exactly one final status —
SUCCEEDED precisely when the exit code is zero, FAILED otherwise. -/
theorem report_exit_code_verbatim_then_final_status (returncode : Int) :
    report_application_result returncode =
      [JobPatchField.exit_code returncode,
       JobPatchField.status (if returncode = 0 then StatusEnum.SD else StatusEnum.FD)] := by
  unfold report_application_result update_status_patches
  by_cases h : returncode = 0
  · simp [h]
  · simp [h]

/-- Directory-creation effects performed against the filesystem. -/
inductive FileEffect where
  | mkdir (path : List String)
deriving DecidableEq

/-- Result of FileManager.request_simulation_directory. -/
inductive SimDirResult where
  | ok (path : List String)
  | value_error (msg : String)
  | runtime_error (msg : String)
deriving DecidableEq

/-- FileManager.request_simulation_directory: reject a job id containing a
path separator before any filesystem access; otherwise attempt to create
simulation_dir / job_id, re-raising a creation failure as RuntimeError.
Paths are segment lists; the job id is its character list (Python tests
membership of the one-character strings / and backslash). -/
def request_simulation_directory (simulation_dir : List String)
    (job_id : List Char) (mkdir_fails : Bool) : SimDirResult × List FileEffect :=
  if job_id.contains '/' || job_id.contains '\\' then
    (SimDirResult.value_error "job_id cannot contain path separators", [])
  else
    let case_directory := simulation_dir ++ [String.mk job_id]
    if mkdir_fails then
      (SimDirResult.runtime_error "Failed to create directory", [])
    else (SimDirResult.ok case_directory, [FileEffect.mkdir case_directory])

/-- C9: for every job id containing a slash or a backslash,
request_simulation_directory raises ValueError before performing any
directory I/O — no filesystem effect happens, whatever the would-be mkdir
outcome. -/
theorem request_simulation_directory_rejects_separators (simulation_dir : List String)
    (job_id : List Char) (mkdir_fails : Bool)
    (h : job_id.contains '/' = true ∨ job_id.contains '\\' = true) :
    request_simulation_directory simulation_dir job_id mkdir_fails
      = (SimDirResult.value_error "job_id cannot contain path separators", []) := by
  unfold request_simulation_directory
  rcases h with h | h
  · rw [if_pos (by rw [Bool.or_eq_true]; exact Or.inl h)]
  · rw [if_pos (by rw [Bool.or_eq_true]; exact Or.inr h)]

/-- C9 witness: the job id j/x is rejected with no filesystem effect. -/
theorem request_simulation_directory_rejects_separators_witness :
    request_simulation_directory ["simulations"] ['j', '/', 'x'] false
      = (SimDirResult.value_error "job_id cannot contain path separators", []) :=
  request_simulation_directory_rejects_separators ["simulations"] ['j', '/', 'x'] false
    (Or.inl (by decide))
